import Mathlib

/-!
Shallow embedding of `src/btcbot/aws_gdax_bot.py`, a single-file Coinbase
DCA market-order bot, together with theorems about its order lifecycle.

The embedding follows `main(event, context)` line by line: effective
parameters are resolved from the event attributes with CLI fallbacks
(lines 106-121), the interactive confirmation gate runs (lines 129-137),
the product is fetched and the amount currency validated (lines 156-171),
a BUY market order is placed (lines 177-185), the placement response is
inspected (lines 187-203), and the status poll loop runs (lines 206-263).
External effects (exchange calls, SNS notifications) are recorded in an
action trace; the run outcome (normal return, `exit()` call sites, or an
uncaught exception) is the second component of the result.
-/

namespace GdaxBot

/-- Python `decimal.Decimal`: an integer mantissa `man` scaled by `10 ^ exp`. -/
structure Dec where
  man : Int
  exp : Int
deriving DecidableEq

/-- Exact rational value of `x / 10 ^ e`. -/
def Dec.scaleTo (x : Dec) (e : Int) : ℚ :=
  let d := x.exp - e
  if 0 ≤ d then ((x.man * 10 ^ d.toNat : Int) : ℚ)
  else (x.man : ℚ) / ((10 ^ (-d).toNat : Nat) : ℚ)

/-- Rational value denoted by a `Dec`. -/
def Dec.value (x : Dec) : ℚ := x.scaleTo 0

/-- Round `a / D` (for `D > 0`) to an integer with ties going to the even
neighbour: the default rounding mode (ROUND_HALF_EVEN) of Python `decimal`
contexts. Uses euclidean division, so the floor and a remainder in
`[0, D)` are exact. -/
def roundHalfEvenDiv (a D : Int) : Int :=
  let f := a.ediv D
  let r := a.emod D
  if 2 * r < D then f
  else if D < 2 * r then f + 1
  else if f % 2 = 0 then f else f + 1

/-- Python `Decimal.quantize`: rescale `x` to the exponent of `inc` (only
the exponent of the operand matters, not its mantissa), rounding half-even
when digits are dropped. -/
def Dec.quantize (x inc : Dec) : Dec :=
  let d := x.exp - inc.exp
  if 0 ≤ d then ⟨x.man * 10 ^ d.toNat, inc.exp⟩
  else ⟨roundHalfEvenDiv x.man (10 ^ (-d).toNat), inc.exp⟩

/-- Move trailing factors of 10 from the mantissa into the exponent. -/
def stripZerosAux : Nat → Int → Int → Int × Int
  | 0, m, e => (m, e)
  | fuel + 1, m, e => if m % 10 = 0 then stripZerosAux fuel (m / 10) (e + 1) else (m, e)

/-- Python `Decimal.normalize`: strip trailing zeros (zero collapses to
exponent 0). -/
def Dec.normalize (x : Dec) : Dec :=
  if x.man = 0 then ⟨0, 0⟩
  else
    let p := stripZerosAux x.man.natAbs x.man x.exp
    ⟨p.1, p.2⟩

/-- Order payload as the bot reads it from `client.get_order`. In the two
message fields `none` models JSON null or a missing key and `some ""` an
empty string (both falsy in Python). In `average_filled_price`, `none`
models a value that `Decimal(...)` cannot convert (missing attribute or
null), which makes line 255 raise an uncaught exception. -/
structure Order where
  status : String
  cancel_message : Option String
  reject_message : Option String
  average_filled_price : Option Dec
deriving DecidableEq

/-- Python truthiness of an optional string: `None` and `""` are falsy. -/
def truthy : Option String → Bool
  | none => false
  | some s => !(s == "")

/-- Statuses that keep the poll loop running (line 220). -/
def loopStatuses : List String := ["OPEN", "PENDING", "UNKNOWN_ORDER_STATUS"]

/-- Statuses excluded from the in-loop cancel/reject check (line 239). -/
def cancelCheckExcluded : List String := ["OPEN", "FILLED", "UNKNOWN_ORDER_STATUS"]

/-- Product metadata used by the bot (lines 159-163); the size fields hold
the decimals the exchange reports, already parsed. -/
structure Product where
  base_currency_id : String
  quote_currency_id : String
  base_min_size : Dec
  base_increment : Dec
  quote_increment : Dec

/-- Shape of the `market_order_buy` response as the code inspects it:
whether a "message" key is present (line 187), whether "error_response" is
present (line 196, only printed), and the success_response order id
(line 200; `none` models a missing key, i.e. a KeyError). -/
structure PlaceResult where
  message : Bool
  error_response : Bool
  success : Option String

/-- One run's external world: the product lookup result, the placement
response, and the stream of `get_order` responses (the n-th call made by
the run returns `polls n`). -/
structure Exchange where
  product : Product
  place : PlaceResult
  polls : Nat → Order

/-- Parsed CLI arguments, with the argparse defaults of lines 50-101. -/
structure Args where
  market_name : String
  order_side : String
  amount : Dec
  amount_currency : String
  sandbox_mode : Bool
  warn_after : Int
  job_mode : Bool
  config_file : String

/-- The `event["attributes"]` mapping (lines 106-114): optional overrides.
`job = some v` means the "job" key is present with value `v`; line 114
only tests key membership (`"job" in attributes`) and never reads the
value. -/
structure EventAttrs where
  market_name : Option String
  order_side : Option String
  amount : Option Dec
  amount_currency : Option String
  config_file : Option String
  job : Option String

/-- Effective market name (line 108). -/
def effMarket (args : Args) (attrs : EventAttrs) : String :=
  attrs.market_name.getD args.market_name

/-- Effective order side (line 109). -/
def effSide (args : Args) (attrs : EventAttrs) : String :=
  attrs.order_side.getD args.order_side

/-- Effective amount (line 110). -/
def effAmount (args : Args) (attrs : EventAttrs) : Dec :=
  attrs.amount.getD args.amount

/-- Effective amount currency (line 111). -/
def effCurrency (args : Args) (attrs : EventAttrs) : String :=
  attrs.amount_currency.getD args.amount_currency

/-- Line 114: `job_mode = True if "job" in attributes else args.job_mode`. -/
def effJobMode (args : Args) (attrs : EventAttrs) : Bool :=
  if attrs.job.isSome then true else args.job_mode

/-- Lines 129-137: the run continues past the confirmation gate iff sandbox
mode or job mode is set, or the typed response is exactly "Y". -/
def gatePasses (args : Args) (attrs : EventAttrs) (stdin : String) : Bool :=
  args.sandbox_mode || effJobMode args attrs || (stdin == "Y")

/-- The SNS notifications the code can publish, identified by their
`sns.publish` call site; each carries the data interpolated into the
Subject and, where the Message body is the order dict, that payload. -/
inductive Notif
  | couldNotPlace (market order_side : String)
  | stuck (market order_side : String) (amount : Dec) (amount_currency : String)
      (payload : Order)
  | cancelledRejected (market order_side : String) (amount : Dec)
      (amount_currency : String) (payload : Order)
  | terminal (market order_side : String) (amount : Dec) (amount_currency : String)
      (status : String) (market_price : Dec) (quote_currency : String)
      (payload : Order)
deriving DecidableEq

/-- Externally visible effects of a run. `cancelOrder` is in the action
vocabulary so that its absence from every trace is a statement about the
code, not about the type; the code never emits it. -/
inductive Action
  | getProduct (market : String)
  | placeBuyOrder (market : String) (quote_size : Dec)
  | getOrder (order_id : String)
  | cancelOrder (order_id : String)
  | notify (n : Notif)
deriving DecidableEq

/-- Whether an action is an SNS notification. -/
def Action.isNotify : Action → Bool
  | .notify _ => true
  | _ => false

/-- Whether an action is a status poll (`client.get_order`). -/
def Action.isGetOrder : Action → Bool
  | .getOrder _ => true
  | _ => false

/-- Whether an action is an order placement. -/
def Action.isPlace : Action → Bool
  | .placeBuyOrder _ _ => true
  | _ => false

/-- Whether an action is an order cancellation request. -/
def Action.isCancel : Action → Bool
  | .cancelOrder _ => true
  | _ => false

/-- How a run ends: each `exit()` call site, each uncaught exception site,
or the normal `return` of line 266. -/
inductive RunResult
  | confirmAbort
  | sellUnsupportedExit
  | placeFailedExit
  | stuckExit
  | cancelRejectExit
  | validationCrash
  | decimalCrash
  | keyErrorCrash
  | success
deriving DecidableEq

/-- Variables of `main` that the poll loop (lines 220-263) reads but never
writes. -/
structure LoopCtx where
  warn_after : Int
  market_name : String
  order_side : String
  amount : Dec
  amount_currency : String
  quote_increment : Dec
  quote_currency : String
  order_id : String
  polls : Nat → Order

/-- Lines 255-263, reached when the loop condition fails: unconditionally
convert `average_filled_price`, quantize it to the quote increment, and
publish the final notification with the raw order payload as body. -/
def finishUp (c : LoopCtx) (order : Order) : List Action × RunResult :=
  match order.average_filled_price with
  | none => ([], RunResult.decimalCrash)
  | some p =>
      ([Action.notify (Notif.terminal c.market_name c.order_side c.amount
          c.amount_currency order.status (p.quantize c.quote_increment)
          c.quote_currency order)],
       RunResult.success)

/-- The `while` loop of lines 220-247 followed by the post-loop code.
Entered with the order returned by the pre-loop poll of line 212,
`total_wait_time = 0` and the next poll index. Each iteration checks the
timeout before polling (lines 222-228), then polls (lines 235-236), then
runs the cancel/reject check (lines 238-247). `wait_time` is the literal 5
of line 206. -/
def pollLoop (c : LoopCtx) (order : Order) (total_wait_time : Int) (idx : Nat) :
    List Action × RunResult :=
  if order.status ∈ loopStatuses then
    if h2 : total_wait_time > c.warn_after then
      ([Action.notify (Notif.stuck c.market_name c.order_side c.amount
          c.amount_currency order)],
       RunResult.stuckExit)
    else
      let o := c.polls idx
      if (truthy o.cancel_message = true ∨ truthy o.reject_message = true) ∧
          o.status ∉ cancelCheckExcluded then
        ([Action.getOrder c.order_id,
          Action.notify (Notif.cancelledRejected c.market_name c.order_side
            c.amount c.amount_currency o)],
         RunResult.cancelRejectExit)
      else
        let r := pollLoop c o (total_wait_time + 5) (idx + 1)
        (Action.getOrder c.order_id :: r.1, r.2)
  else
    finishUp c order
termination_by (c.warn_after + 5 - total_wait_time).toNat
decreasing_by
  simp_wf
  omega

/-- Loop context assembled by `main` before entering the poll loop. -/
def mkLoopCtx (args : Args) (attrs : EventAttrs) (oid : String) (ex : Exchange) :
    LoopCtx :=
  ⟨args.warn_after, effMarket args attrs, effSide args attrs,
   effAmount args attrs, effCurrency args attrs,
   ex.product.quote_increment.normalize, ex.product.quote_currency_id,
   oid, ex.polls⟩

/-- Lines 177-263, run after the currency validation succeeded. The first
argument models the `amount_currency_is_quote_currency` flag of lines
164-167: it is assigned but never read again, which is why no part of the
body depends on it. -/
def afterProduct (amount_currency_is_quote_currency : Bool) (args : Args)
    (attrs : EventAttrs) (ex : Exchange) : List Action × RunResult :=
  let base_increment := ex.product.base_increment.normalize
  let quote_size := (effAmount args attrs).quantize base_increment
  if effSide args attrs = "BUY" then
    if ex.place.message then
      ([Action.placeBuyOrder (effMarket args attrs) quote_size,
        Action.notify (Notif.couldNotPlace (effMarket args attrs)
          (effSide args attrs))],
       RunResult.placeFailedExit)
    else
      match ex.place.success with
      | none => ([Action.placeBuyOrder (effMarket args attrs) quote_size],
          RunResult.keyErrorCrash)
      | some oid =>
          let r := pollLoop (mkLoopCtx args attrs oid ex) (ex.polls 0) 0 1
          (Action.placeBuyOrder (effMarket args attrs) quote_size ::
            Action.getOrder oid :: r.1, r.2)
  else
    ([], RunResult.sellUnsupportedExit)

/-- The whole of `main(event, context)`: parameter resolution, confirmation
gate, product fetch, currency validation (lines 164-171, raising on
mismatch), then `afterProduct`. The returned trace lists the exchange calls
and notifications in program order. -/
def runMain (args : Args) (attrs : EventAttrs) (stdin : String) (ex : Exchange) :
    List Action × RunResult :=
  if gatePasses args attrs stdin then
    let inner :=
      if effCurrency args attrs = ex.product.quote_currency_id then
        afterProduct true args attrs ex
      else if effCurrency args attrs = ex.product.base_currency_id then
        afterProduct false args attrs ex
      else ([], RunResult.validationCrash)
    (Action.getProduct (effMarket args attrs) :: inner.1, inner.2)
  else
    ([], RunResult.confirmAbort)

/-! ## Helper lemmas shared by the claim theorems -/

/-- Any run that passes the gate, validates its currency, asks for a BUY and
gets a well-formed placement response reaches the poll loop, with the three
preceding exchange calls on the trace. -/
theorem runMain_to_pollLoop
    (args : Args) (attrs : EventAttrs) (stdin : String) (ex : Exchange) (oid : String)
    (hgate : gatePasses args attrs stdin = true)
    (hcur : effCurrency args attrs = ex.product.quote_currency_id ∨
      effCurrency args attrs = ex.product.base_currency_id)
    (hside : effSide args attrs = "BUY")
    (hmsg : ex.place.message = false)
    (hsucc : ex.place.success = some oid) :
    runMain args attrs stdin ex =
      (Action.getProduct (effMarket args attrs) ::
        Action.placeBuyOrder (effMarket args attrs)
          ((effAmount args attrs).quantize ex.product.base_increment.normalize) ::
        Action.getOrder oid ::
        (pollLoop (mkLoopCtx args attrs oid ex) (ex.polls 0) 0 1).1,
       (pollLoop (mkLoopCtx args attrs oid ex) (ex.polls 0) 0 1).2) := by
  by_cases hq : effCurrency args attrs = ex.product.quote_currency_id
  · simp [runMain, afterProduct, hgate, hq, hside, hmsg, hsucc]
  · rcases hcur with h | h
    · exact absurd h hq
    · simp [runMain, afterProduct, hgate, hq, h, hside, hmsg, hsucc]

/-! ## C1: stuck-order timeout -/

/-- C1: with `warn_after = 30` and the fixed poll interval 5, a run whose
every status poll returns OPEN performs exactly 8 polls (one pre-loop, seven
in-loop), then — once the cumulative wait counter reaches 35, first
exceeding `warn_after` — emits exactly one stuck-order notification as its
final action, terminates via the `exit()` of line 228, performs no further
polls, and never issues a cancel request for the order. -/
theorem stuck_open_order_one_notification
    (args : Args) (attrs : EventAttrs) (stdin : String) (ex : Exchange) (oid : String)
    (hwa : args.warn_after = 30)
    (hgate : gatePasses args attrs stdin = true)
    (hcur : effCurrency args attrs = ex.product.quote_currency_id ∨
      effCurrency args attrs = ex.product.base_currency_id)
    (hside : effSide args attrs = "BUY")
    (hmsg : ex.place.message = false)
    (hsucc : ex.place.success = some oid)
    (hopen : ∀ n, (ex.polls n).status = "OPEN") :
    runMain args attrs stdin ex =
      ([Action.getProduct (effMarket args attrs),
        Action.placeBuyOrder (effMarket args attrs)
          ((effAmount args attrs).quantize ex.product.base_increment.normalize),
        Action.getOrder oid, Action.getOrder oid, Action.getOrder oid,
        Action.getOrder oid, Action.getOrder oid, Action.getOrder oid,
        Action.getOrder oid, Action.getOrder oid,
        Action.notify (Notif.stuck (effMarket args attrs) "BUY"
          (effAmount args attrs) (effCurrency args attrs) (ex.polls 7))],
       RunResult.stuckExit) ∧
    (runMain args attrs stdin ex).1.countP Action.isNotify = 1 ∧
    (runMain args attrs stdin ex).1.countP Action.isGetOrder = 8 ∧
    (runMain args attrs stdin ex).1.countP Action.isCancel = 0 := by
  have h0 := runMain_to_pollLoop args attrs stdin ex oid hgate hcur hside hmsg hsucc
  have hl : pollLoop (mkLoopCtx args attrs oid ex) (ex.polls 0) 0 1 =
      ([Action.getOrder oid, Action.getOrder oid, Action.getOrder oid,
        Action.getOrder oid, Action.getOrder oid, Action.getOrder oid,
        Action.getOrder oid,
        Action.notify (Notif.stuck (effMarket args attrs) "BUY"
          (effAmount args attrs) (effCurrency args attrs) (ex.polls 7))],
       RunResult.stuckExit) := by
    simp [pollLoop, mkLoopCtx, hopen, hwa, hside, loopStatuses,
      cancelCheckExcluded, truthy]
  rw [h0, hl]
  refine ⟨rfl, ?_, ?_, ?_⟩ <;>
    simp [Action.isNotify, Action.isGetOrder, Action.isCancel]

/-! ## Concrete fixtures for witnesses and counterexamples -/

/-- The argparse defaults of lines 50-101 (`warn_after = 30`, amount 4.00). -/
def args0 : Args :=
  ⟨"BTC-USD", "BUY", ⟨400, -2⟩, "USD", false, 30, false, "./settings-local.conf"⟩

/-- An empty `attributes` mapping: every value falls back to the CLI. -/
def attrs0 : EventAttrs := ⟨none, none, none, none, none, none⟩

/-- BTC-USD metadata: base increment 1e-8, quote increment 0.01. -/
def product0 : Product := ⟨"BTC", "USD", ⟨1, -3⟩, ⟨1, -8⟩, ⟨1, -2⟩⟩

/-- An order that stays OPEN with no messages and no fill price. -/
def openOrd : Order := ⟨"OPEN", none, none, none⟩

/-- A world whose every status poll returns `openOrd`. -/
def exOpen : Exchange := ⟨product0, ⟨false, false, some "ord-1"⟩, fun _ => openOrd⟩

/-- C1 witness: the CLI-default run against `exOpen` with confirmation "Y"
ends in the stuck-order exit with exactly one notification, eight polls and
no cancel request. -/
theorem stuck_open_order_one_notification_witness :
    runMain args0 attrs0 "Y" exOpen =
      ([Action.getProduct (effMarket args0 attrs0),
        Action.placeBuyOrder (effMarket args0 attrs0)
          ((effAmount args0 attrs0).quantize exOpen.product.base_increment.normalize),
        Action.getOrder "ord-1", Action.getOrder "ord-1", Action.getOrder "ord-1",
        Action.getOrder "ord-1", Action.getOrder "ord-1", Action.getOrder "ord-1",
        Action.getOrder "ord-1", Action.getOrder "ord-1",
        Action.notify (Notif.stuck (effMarket args0 attrs0) "BUY"
          (effAmount args0 attrs0) (effCurrency args0 attrs0) (exOpen.polls 7))],
       RunResult.stuckExit) ∧
    (runMain args0 attrs0 "Y" exOpen).1.countP Action.isNotify = 1 ∧
    (runMain args0 attrs0 "Y" exOpen).1.countP Action.isGetOrder = 8 ∧
    (runMain args0 attrs0 "Y" exOpen).1.countP Action.isCancel = 0 :=
  stuck_open_order_one_notification args0 attrs0 "Y" exOpen "ord-1" rfl rfl
    (Or.inl rfl) rfl rfl rfl (fun _ => rfl)

/-! ## C2: in-loop cancel/reject detection -/

/-- C2: at any point inside the status loop, if the next poll's response
carries a truthy `cancel_message` or `reject_message` while its status is
outside {OPEN, FILLED, UNKNOWN_ORDER_STATUS} (CANCELLED in particular),
the run publishes the cancellation/rejection notification of lines 242-246
and exits; the only poll performed from that point on is the one that
returned the message, whatever the poll stream holds at later indices. -/
theorem cancel_reject_message_terminates
    (c : LoopCtx) (order : Order) (total : Int) (idx : Nat)
    (hin : order.status ∈ loopStatuses)
    (hnw : ¬ total > c.warn_after)
    (hmsg : truthy (c.polls idx).cancel_message = true ∨
      truthy (c.polls idx).reject_message = true)
    (hst : (c.polls idx).status ∉ cancelCheckExcluded) :
    pollLoop c order total idx =
      ([Action.getOrder c.order_id,
        Action.notify (Notif.cancelledRejected c.market_name c.order_side
          c.amount c.amount_currency (c.polls idx))],
       RunResult.cancelRejectExit) := by
  have hcond : (truthy (c.polls idx).cancel_message = true ∨
      truthy (c.polls idx).reject_message = true) ∧
      (c.polls idx).status ∉ cancelCheckExcluded := ⟨hmsg, hst⟩
  simp [pollLoop, hin, hnw, hcond]

/-- A context with `warn_after = 30` whose first in-loop poll returns a
CANCELLED order carrying a reject message. -/
def ctxRejected : LoopCtx :=
  ⟨30, "BTC-USD", "BUY", ⟨400, -2⟩, "USD", ⟨1, -2⟩, "USD", "ord-1",
   fun _ => ⟨"CANCELLED", none, some "rejected by exchange", none⟩⟩

/-- C2 witness: a loop entered on an OPEN order whose first poll comes back
CANCELLED with a non-empty `reject_message` stops after that single poll
with the cancellation notification. -/
theorem cancel_reject_message_terminates_witness :
    pollLoop ctxRejected openOrd 0 1 =
      ([Action.getOrder "ord-1",
        Action.notify (Notif.cancelledRejected "BTC-USD" "BUY" ⟨400, -2⟩ "USD"
          (ctxRejected.polls 1))],
       RunResult.cancelRejectExit) :=
  cancel_reject_message_terminates ctxRejected openOrd 0 1 (by decide)
    (by decide) (Or.inr (by decide)) (by decide)

/-! ## C10: unguarded price conversion after the loop -/

/-- C10: whenever the loop condition of line 220 sees a status outside
{OPEN, PENDING, UNKNOWN_ORDER_STATUS}, control falls straight into the
price conversion of line 255 with no guard on the status being FILLED or
on `average_filled_price` being present: the run continues exactly as
`finishUp`, and when `average_filled_price` is unparseable — e.g. a
CANCELLED order that never filled — the run dies in the conversion with no
notification at all. -/
theorem unguarded_price_conversion
    (c : LoopCtx) (order : Order) (total : Int) (idx : Nat)
    (hst : order.status ∉ loopStatuses) :
    pollLoop c order total idx = finishUp c order ∧
    (order.average_filled_price = none →
      (pollLoop c order total idx).2 = RunResult.decimalCrash ∧
      (pollLoop c order total idx).1.countP Action.isNotify = 0) := by
  have h1 : pollLoop c order total idx = finishUp c order := by
    simp [pollLoop, hst]
  refine ⟨h1, fun hp => ?_⟩
  rw [h1]
  simp [finishUp, hp]

/-- C10 witness: a CANCELLED order with no fill price reaching the loop
condition makes the run crash in the conversion, unnotified. -/
theorem unguarded_price_conversion_witness :
    pollLoop ctxRejected ⟨"CANCELLED", none, none, none⟩ 0 1 =
      finishUp ctxRejected ⟨"CANCELLED", none, none, none⟩ ∧
    ((Order.mk "CANCELLED" none none none).average_filled_price = none →
      (pollLoop ctxRejected ⟨"CANCELLED", none, none, none⟩ 0 1).2 =
        RunResult.decimalCrash ∧
      (pollLoop ctxRejected ⟨"CANCELLED", none, none, none⟩ 0 1).1.countP
        Action.isNotify = 0) :=
  unguarded_price_conversion ctxRejected ⟨"CANCELLED", none, none, none⟩ 0 1
    (by decide)

/-! ## C3: terminal-failure notification -/

/-- A world whose order comes back CANCELLED on the very first status poll,
with no cancel/reject message and no parseable fill price. -/
def exCancelledNoPrice : Exchange :=
  ⟨product0, ⟨false, false, some "ord-1"⟩, fun _ => ⟨"CANCELLED", none, none, none⟩⟩

/-- C3 counterexample: in this run the polled order reaches the terminal
failure status CANCELLED (on the first poll, with no cancel/reject
message), yet the run publishes no notification whatsoever: it dies in the
`Decimal(order.average_filled_price)` conversion of line 255. -/
theorem cancelled_without_price_crashes_unnotified :
    (exCancelledNoPrice.polls 0).status = "CANCELLED" ∧
    runMain args0 attrs0 "Y" exCancelledNoPrice =
      ([Action.getProduct (effMarket args0 attrs0),
        Action.placeBuyOrder (effMarket args0 attrs0)
          ((effAmount args0 attrs0).quantize
            exCancelledNoPrice.product.base_increment.normalize),
        Action.getOrder "ord-1"],
       RunResult.decimalCrash) ∧
    (runMain args0 attrs0 "Y" exCancelledNoPrice).1.countP Action.isNotify = 0 := by
  have h0 := runMain_to_pollLoop args0 attrs0 "Y" exCancelledNoPrice "ord-1" rfl
    (Or.inl rfl) rfl rfl rfl
  have hl : pollLoop (mkLoopCtx args0 attrs0 "ord-1" exCancelledNoPrice)
      (exCancelledNoPrice.polls 0) 0 1 = ([], RunResult.decimalCrash) := by
    rw [pollLoop.eq_def]
    simp [exCancelledNoPrice, loopStatuses, finishUp]
  refine ⟨rfl, ?_, ?_⟩
  · rw [h0, hl]
  · rw [h0, hl]
    simp [Action.isNotify]

/-- C3 amended: when the loop condition sees a terminal failure status
(CANCELLED or REJECTED) and the order's `average_filled_price` is present
and parseable, the run publishes exactly one notification whose body is the
raw order payload (and whose subject carries the raw status), then returns
normally; without a parseable `average_filled_price` the run instead
crashes before notifying (see the counterexample). -/
theorem terminal_failure_notifies_payload
    (c : LoopCtx) (order : Order) (total : Int) (idx : Nat) (p : Dec)
    (hst : order.status = "CANCELLED" ∨ order.status = "REJECTED")
    (hp : order.average_filled_price = some p) :
    pollLoop c order total idx =
      ([Action.notify (Notif.terminal c.market_name c.order_side c.amount
          c.amount_currency order.status (p.quantize c.quote_increment)
          c.quote_currency order)],
       RunResult.success) := by
  have hni : order.status ∉ loopStatuses := by
    rcases hst with h | h <;> simp [h, loopStatuses]
  rw [pollLoop.eq_def]
  simp [hni, finishUp, hp]

/-- C3 witness: a CANCELLED order whose fill price parses as 0 (what the
exchange reports for an unfilled order) is notified with the raw payload. -/
theorem terminal_failure_notifies_payload_witness :
    pollLoop ctxRejected ⟨"CANCELLED", none, none, some ⟨0, 0⟩⟩ 0 1 =
      ([Action.notify (Notif.terminal "BTC-USD" "BUY" ⟨400, -2⟩ "USD"
          "CANCELLED" ⟨0, -2⟩ "USD" ⟨"CANCELLED", none, none, some ⟨0, 0⟩⟩)],
       RunResult.success) :=
  terminal_failure_notifies_payload ctxRejected
    ⟨"CANCELLED", none, none, some ⟨0, 0⟩⟩ 0 1 ⟨0, 0⟩ (Or.inl rfl) rfl

/-! ## C4: price quantization on terminal success -/

/-- An order filled at average price 50000.125. -/
def fillOrd : Order := ⟨"FILLED", none, none, some ⟨50000125, -3⟩⟩

/-- A world whose order fills immediately at 50000.125. -/
def exFilled : Exchange := ⟨product0, ⟨false, false, some "ord-1"⟩, fun _ => fillOrd⟩

/-- C4 counterexample: with average filled price 50000.125 and quote
increment 0.01, the price the run notifies is 50000.12 (mantissa 5000012
at exponent -2), not the 50000.13 the claim states: Python `quantize`
rounds half-to-even, and the tie at 50000.125 goes down to the even digit. -/
theorem half_even_quantization_counterexample :
    runMain args0 attrs0 "Y" exFilled =
      ([Action.getProduct (effMarket args0 attrs0),
        Action.placeBuyOrder (effMarket args0 attrs0)
          ((effAmount args0 attrs0).quantize exFilled.product.base_increment.normalize),
        Action.getOrder "ord-1",
        Action.notify (Notif.terminal (effMarket args0 attrs0) "BUY"
          (effAmount args0 attrs0) (effCurrency args0 attrs0) "FILLED"
          ⟨5000012, -2⟩ "USD" fillOrd)],
       RunResult.success) ∧
    (⟨5000012, -2⟩ : Dec) ≠ ⟨5000013, -2⟩ ∧
    Dec.value ⟨5000012, -2⟩ ≠ Dec.value ⟨5000013, -2⟩ := by
  have h0 := runMain_to_pollLoop args0 attrs0 "Y" exFilled "ord-1" rfl
    (Or.inl rfl) rfl rfl rfl
  have hq : Dec.quantize ⟨50000125, -3⟩ (Dec.normalize ⟨1, -2⟩) = ⟨5000012, -2⟩ := by
    decide
  have hl : pollLoop (mkLoopCtx args0 attrs0 "ord-1" exFilled)
      (exFilled.polls 0) 0 1 =
      ([Action.notify (Notif.terminal (effMarket args0 attrs0) "BUY"
          (effAmount args0 attrs0) (effCurrency args0 attrs0) "FILLED"
          ⟨5000012, -2⟩ "USD" fillOrd)],
       RunResult.success) := by
    rw [pollLoop.eq_def]
    simp [exFilled, fillOrd, loopStatuses, finishUp, mkLoopCtx, product0,
      effSide, args0, attrs0, hq]
  refine ⟨?_, by decide, ?_⟩
  · rw [h0, hl]
  · unfold Dec.value Dec.scaleTo
    norm_num [Int.toNat]

/-- C4 amended: on terminal success the notified price is exactly
`average_filled_price` quantized to the market's (normalized) quote
increment; the quantization is the deterministic half-even rule, under
which 50000.125 at increment 0.01 yields 50000.12 (not 50000.13). -/
theorem success_price_quantized_half_even
    (args : Args) (attrs : EventAttrs) (stdin : String) (ex : Exchange)
    (oid : String) (p : Dec)
    (hgate : gatePasses args attrs stdin = true)
    (hcur : effCurrency args attrs = ex.product.quote_currency_id ∨
      effCurrency args attrs = ex.product.base_currency_id)
    (hside : effSide args attrs = "BUY")
    (hmsg : ex.place.message = false)
    (hsucc : ex.place.success = some oid)
    (hfill : (ex.polls 0).status = "FILLED")
    (hp : (ex.polls 0).average_filled_price = some p) :
    runMain args attrs stdin ex =
      ([Action.getProduct (effMarket args attrs),
        Action.placeBuyOrder (effMarket args attrs)
          ((effAmount args attrs).quantize ex.product.base_increment.normalize),
        Action.getOrder oid,
        Action.notify (Notif.terminal (effMarket args attrs) "BUY"
          (effAmount args attrs) (effCurrency args attrs) "FILLED"
          (p.quantize ex.product.quote_increment.normalize)
          ex.product.quote_currency_id (ex.polls 0))],
       RunResult.success) ∧
    Dec.quantize ⟨50000125, -3⟩ ⟨1, -2⟩ = ⟨5000012, -2⟩ := by
  refine ⟨?_, by decide⟩
  have h0 := runMain_to_pollLoop args attrs stdin ex oid hgate hcur hside hmsg hsucc
  have hni : (ex.polls 0).status ∉ loopStatuses := by simp [hfill, loopStatuses]
  have hl : pollLoop (mkLoopCtx args attrs oid ex) (ex.polls 0) 0 1 =
      ([Action.notify (Notif.terminal (effMarket args attrs) "BUY"
          (effAmount args attrs) (effCurrency args attrs) "FILLED"
          (p.quantize ex.product.quote_increment.normalize)
          ex.product.quote_currency_id (ex.polls 0))],
       RunResult.success) := by
    rw [pollLoop.eq_def]
    simp [hni, finishUp, hp, mkLoopCtx, hfill, hside, loopStatuses]
  rw [h0, hl]

/-- C4 witness: the immediate-fill run at 50000.125 notifies 50000.12. -/
theorem success_price_quantized_half_even_witness :
    runMain args0 attrs0 "Y" exFilled =
      ([Action.getProduct (effMarket args0 attrs0),
        Action.placeBuyOrder (effMarket args0 attrs0)
          ((effAmount args0 attrs0).quantize exFilled.product.base_increment.normalize),
        Action.getOrder "ord-1",
        Action.notify (Notif.terminal (effMarket args0 attrs0) "BUY"
          (effAmount args0 attrs0) (effCurrency args0 attrs0) "FILLED"
          ⟨5000012, -2⟩ "USD" (exFilled.polls 0))],
       RunResult.success) ∧
    Dec.quantize ⟨50000125, -3⟩ ⟨1, -2⟩ = ⟨5000012, -2⟩ :=
  success_price_quantized_half_even args0 attrs0 "Y" exFilled "ord-1"
    ⟨50000125, -3⟩ rfl (Or.inl rfl) rfl rfl rfl rfl rfl

/-! ## C5: BUY is supported, SELL is not -/

/-- Attributes selecting a SELL run. -/
def attrsSell : EventAttrs := ⟨none, some "SELL", none, none, none, none⟩

/-- C5 counterexample: a run with `order_side = SELL` submits nothing at
all — it hits the bare `exit()` of line 185 right after the product lookup,
placing no order of either side and sending no notification. -/
theorem sell_run_places_no_order :
    runMain args0 attrsSell "Y" exFilled =
      ([Action.getProduct "BTC-USD"], RunResult.sellUnsupportedExit) ∧
    (runMain args0 attrsSell "Y" exFilled).1.countP Action.isPlace = 0 ∧
    (runMain args0 attrsSell "Y" exFilled).1.countP Action.isNotify = 0 := by
  have h : runMain args0 attrsSell "Y" exFilled =
      ([Action.getProduct "BTC-USD"], RunResult.sellUnsupportedExit) := by
    simp [runMain, afterProduct, gatePasses, effJobMode, effMarket, effSide,
      effCurrency, args0, attrsSell, exFilled, product0]
  rw [h]
  exact ⟨rfl, by simp [Action.isPlace], by simp [Action.isNotify]⟩

/-- C5 amended: only BUY is supported. A BUY run places exactly one market
order, polls it and notifies the outcome; a SELL run terminates right after
the product lookup without submitting any order. -/
theorem buy_only_order_placement
    (args : Args) (attrs : EventAttrs) (stdin : String) (ex : Exchange)
    (oid : String) (p : Dec)
    (hgate : gatePasses args attrs stdin = true)
    (hcur : effCurrency args attrs = ex.product.quote_currency_id ∨
      effCurrency args attrs = ex.product.base_currency_id)
    (hmsg : ex.place.message = false)
    (hsucc : ex.place.success = some oid)
    (hfill : (ex.polls 0).status = "FILLED")
    (hp : (ex.polls 0).average_filled_price = some p) :
    (effSide args attrs = "BUY" →
      runMain args attrs stdin ex =
        ([Action.getProduct (effMarket args attrs),
          Action.placeBuyOrder (effMarket args attrs)
            ((effAmount args attrs).quantize ex.product.base_increment.normalize),
          Action.getOrder oid,
          Action.notify (Notif.terminal (effMarket args attrs) "BUY"
            (effAmount args attrs) (effCurrency args attrs) "FILLED"
            (p.quantize ex.product.quote_increment.normalize)
            ex.product.quote_currency_id (ex.polls 0))],
         RunResult.success) ∧
      (runMain args attrs stdin ex).1.countP Action.isPlace = 1) ∧
    (effSide args attrs = "SELL" →
      runMain args attrs stdin ex =
        ([Action.getProduct (effMarket args attrs)],
         RunResult.sellUnsupportedExit) ∧
      (runMain args attrs stdin ex).1.countP Action.isPlace = 0) := by
  constructor
  · intro hside
    have h0 := runMain_to_pollLoop args attrs stdin ex oid hgate hcur hside hmsg hsucc
    have hl : pollLoop (mkLoopCtx args attrs oid ex) (ex.polls 0) 0 1 =
        ([Action.notify (Notif.terminal (effMarket args attrs) "BUY"
            (effAmount args attrs) (effCurrency args attrs) "FILLED"
            (p.quantize ex.product.quote_increment.normalize)
            ex.product.quote_currency_id (ex.polls 0))],
         RunResult.success) := by
      rw [pollLoop.eq_def]
      simp [finishUp, hp, mkLoopCtx, hfill, hside, loopStatuses]
    rw [h0, hl]
    exact ⟨rfl, by simp [Action.isPlace, Action.isNotify]⟩
  · intro hside
    have h : runMain args attrs stdin ex =
        ([Action.getProduct (effMarket args attrs)],
         RunResult.sellUnsupportedExit) := by
      rcases hcur with hq | hb
      · simp [runMain, afterProduct, hgate, hq, hside]
      · by_cases hq : effCurrency args attrs = ex.product.quote_currency_id
        · simp [runMain, afterProduct, hgate, hq, hside]
        · simp [runMain, afterProduct, hgate, hq, hb, hside]
    rw [h]
    exact ⟨rfl, by simp [Action.isPlace]⟩

/-- C5 witness: the immediate-fill BUY fixture run instantiates the BUY
branch; the SELL branch holds vacuously at this input. -/
theorem buy_only_order_placement_witness :
    (effSide args0 attrs0 = "BUY" →
      runMain args0 attrs0 "Y" exFilled =
        ([Action.getProduct (effMarket args0 attrs0),
          Action.placeBuyOrder (effMarket args0 attrs0)
            ((effAmount args0 attrs0).quantize exFilled.product.base_increment.normalize),
          Action.getOrder "ord-1",
          Action.notify (Notif.terminal (effMarket args0 attrs0) "BUY"
            (effAmount args0 attrs0) (effCurrency args0 attrs0) "FILLED"
            ⟨5000012, -2⟩ "USD" (exFilled.polls 0))],
         RunResult.success) ∧
      (runMain args0 attrs0 "Y" exFilled).1.countP Action.isPlace = 1) ∧
    (effSide args0 attrs0 = "SELL" →
      runMain args0 attrs0 "Y" exFilled =
        ([Action.getProduct (effMarket args0 attrs0)],
         RunResult.sellUnsupportedExit) ∧
      (runMain args0 attrs0 "Y" exFilled).1.countP Action.isPlace = 0) :=
  buy_only_order_placement args0 attrs0 "Y" exFilled "ord-1" ⟨50000125, -3⟩
    rfl (Or.inl rfl) rfl rfl rfl rfl

/-! ## C6: currency validation ordering -/

/-- Attributes whose amount currency matches neither side of BTC-USD. -/
def attrsBadCur : EventAttrs := ⟨none, none, none, some "DOGE", none, none⟩

/-- C6 counterexample: the mismatched-currency run does abort with the
validation exception of line 169 before any order is submitted, but not
before any exchange call: the `get_product` call of line 156 is already on
the trace when the run dies. -/
theorem currency_mismatch_after_product_call :
    runMain args0 attrsBadCur "Y" exFilled =
      ([Action.getProduct "BTC-USD"], RunResult.validationCrash) ∧
    Action.getProduct "BTC-USD" ∈ (runMain args0 attrsBadCur "Y" exFilled).1 := by
  decide

/-- C6 amended: a run whose amount currency matches neither the quote nor
the base currency dies in the validation `raise` of line 169 with no order
placed and no poll made — but only after the product-metadata exchange call
that the validation itself requires, which is always on the trace. -/
theorem currency_mismatch_aborts_before_order
    (args : Args) (attrs : EventAttrs) (stdin : String) (ex : Exchange)
    (hgate : gatePasses args attrs stdin = true)
    (hq : effCurrency args attrs ≠ ex.product.quote_currency_id)
    (hb : effCurrency args attrs ≠ ex.product.base_currency_id) :
    runMain args attrs stdin ex =
      ([Action.getProduct (effMarket args attrs)], RunResult.validationCrash) ∧
    (runMain args attrs stdin ex).1.countP Action.isPlace = 0 ∧
    (runMain args attrs stdin ex).1.countP Action.isGetOrder = 0 := by
  have h : runMain args attrs stdin ex =
      ([Action.getProduct (effMarket args attrs)], RunResult.validationCrash) := by
    simp [runMain, hgate, hq, hb]
  rw [h]
  exact ⟨rfl, by simp [Action.isPlace], by simp [Action.isGetOrder]⟩

/-- C6 witness: the DOGE-denominated run against BTC-USD. -/
theorem currency_mismatch_aborts_before_order_witness :
    runMain args0 attrsBadCur "Y" exFilled =
      ([Action.getProduct (effMarket args0 attrsBadCur)], RunResult.validationCrash) ∧
    (runMain args0 attrsBadCur "Y" exFilled).1.countP Action.isPlace = 0 ∧
    (runMain args0 attrsBadCur "Y" exFilled).1.countP Action.isGetOrder = 0 :=
  currency_mismatch_aborts_before_order args0 attrsBadCur "Y" exFilled rfl
    (by decide) (by decide)

/-! ## C7: no amount-positivity validation -/

/-- The poll loop (and the code after it) can never reach the validation
`raise` of line 169; its result is one of the loop's own outcomes. -/
theorem pollLoop_ne_validation (c : LoopCtx) (order : Order) (total : Int)
    (idx : Nat) :
    (pollLoop c order total idx).2 ≠ RunResult.validationCrash := by
  induction order, total, idx using pollLoop.induct with
  | c => exact c
  | case1 order total idx h1 h2 =>
      rw [pollLoop.eq_def]
      simp [h1, h2]
  | case2 order total idx h1 h2 o hcond =>
      have hcond2 : (truthy (c.polls idx).cancel_message = true ∨
          truthy (c.polls idx).reject_message = true) ∧
          (c.polls idx).status ∉ cancelCheckExcluded := hcond
      rw [pollLoop.eq_def]
      simp [h1, h2, hcond2]
  | case3 order total idx h1 h2 o hcond ih =>
      have hcond2 : ¬((truthy (c.polls idx).cancel_message = true ∨
          truthy (c.polls idx).reject_message = true) ∧
          (c.polls idx).status ∉ cancelCheckExcluded) := hcond
      have ih2 : (pollLoop c (c.polls idx) (total + 5) (idx + 1)).2 ≠
          RunResult.validationCrash := ih
      rw [pollLoop.eq_def]
      simp [h1, h2, hcond2]
      exact ih2
  | case4 order total idx h1 =>
      rw [pollLoop.eq_def]
      cases horder : order.average_filled_price <;> simp [h1, finishUp, horder]

/-- Attributes overriding the amount with 0. -/
def attrsZero : EventAttrs := ⟨none, none, some ⟨0, 0⟩, none, none, none⟩

/-- C7 counterexample: a run with amount 0 — non-positive — is not rejected
by any validation: it submits a market order with quote size 0 to the
exchange and completes normally. -/
theorem zero_amount_order_submitted :
    Dec.value (effAmount args0 attrsZero) ≤ 0 ∧
    runMain args0 attrsZero "Y" exFilled =
      ([Action.getProduct (effMarket args0 attrsZero),
        Action.placeBuyOrder (effMarket args0 attrsZero)
          ((effAmount args0 attrsZero).quantize exFilled.product.base_increment.normalize),
        Action.getOrder "ord-1",
        Action.notify (Notif.terminal (effMarket args0 attrsZero) "BUY"
          (effAmount args0 attrsZero) (effCurrency args0 attrsZero) "FILLED"
          ⟨5000012, -2⟩ "USD" (exFilled.polls 0))],
       RunResult.success) ∧
    (runMain args0 attrsZero "Y" exFilled).1.countP Action.isPlace = 1 ∧
    (runMain args0 attrsZero "Y" exFilled).2 ≠ RunResult.validationCrash := by
  have h0 := runMain_to_pollLoop args0 attrsZero "Y" exFilled "ord-1" rfl
    (Or.inl rfl) rfl rfl rfl
  have hq : Dec.quantize ⟨50000125, -3⟩ (Dec.normalize ⟨1, -2⟩) = ⟨5000012, -2⟩ := by
    decide
  have hl : pollLoop (mkLoopCtx args0 attrsZero "ord-1" exFilled)
      (exFilled.polls 0) 0 1 =
      ([Action.notify (Notif.terminal (effMarket args0 attrsZero) "BUY"
          (effAmount args0 attrsZero) (effCurrency args0 attrsZero) "FILLED"
          ⟨5000012, -2⟩ "USD" (exFilled.polls 0))],
       RunResult.success) := by
    rw [pollLoop.eq_def]
    simp [exFilled, fillOrd, loopStatuses, finishUp, mkLoopCtx, product0,
      effSide, args0, attrsZero, hq]
  refine ⟨by decide, ?_, ?_, ?_⟩
  · rw [h0, hl]
  · rw [h0, hl]
    simp [Action.isPlace]
  · rw [h0, hl]
    simp

/-- C7 amended: the code performs no amount-positivity validation at all:
any run that passes the gate and the currency check submits its order even
when the amount is non-positive, and no path through the rest of the run
can raise the validation error. -/
theorem no_amount_positivity_check
    (args : Args) (attrs : EventAttrs) (stdin : String) (ex : Exchange)
    (oid : String)
    (hgate : gatePasses args attrs stdin = true)
    (hcur : effCurrency args attrs = ex.product.quote_currency_id ∨
      effCurrency args attrs = ex.product.base_currency_id)
    (hside : effSide args attrs = "BUY")
    (hmsg : ex.place.message = false)
    (hsucc : ex.place.success = some oid)
    (hnp : Dec.value (effAmount args attrs) ≤ 0) :
    Action.placeBuyOrder (effMarket args attrs)
        ((effAmount args attrs).quantize ex.product.base_increment.normalize) ∈
      (runMain args attrs stdin ex).1 ∧
    (runMain args attrs stdin ex).2 ≠ RunResult.validationCrash := by
  have h0 := runMain_to_pollLoop args attrs stdin ex oid hgate hcur hside hmsg hsucc
  rw [h0]
  constructor
  · simp
  · exact pollLoop_ne_validation (mkLoopCtx args attrs oid ex) (ex.polls 0) 0 1

/-- C7 witness: the zero-amount run submits its order and does not end in
the validation crash. -/
theorem no_amount_positivity_check_witness :
    Action.placeBuyOrder (effMarket args0 attrsZero)
        ((effAmount args0 attrsZero).quantize exFilled.product.base_increment.normalize) ∈
      (runMain args0 attrsZero "Y" exFilled).1 ∧
    (runMain args0 attrsZero "Y" exFilled).2 ≠ RunResult.validationCrash :=
  no_amount_positivity_check args0 attrsZero "Y" exFilled "ord-1" rfl
    (Or.inl rfl) rfl rfl rfl (by decide)

/-! ## C8: the "job" attribute key -/

/-- C8: whenever the `attributes` mapping contains the "job" key — with any
value, the empty string included — `job_mode` is forced to `True`, the gate
passes for every stdin, and the whole run is independent of the prompt
response; the CLI `--job` flag is consulted only when the key is absent. -/
theorem job_key_forces_job_mode (args : Args) (attrs : EventAttrs) (ex : Exchange) :
    (∀ v, attrs.job = some v →
      effJobMode args attrs = true ∧
      (∀ s, gatePasses args attrs s = true) ∧
      ∀ s1 s2, runMain args attrs s1 ex = runMain args attrs s2 ex) ∧
    (attrs.job = none → effJobMode args attrs = args.job_mode) := by
  constructor
  · intro v hv
    have hj : effJobMode args attrs = true := by simp [effJobMode, hv]
    have hg : ∀ s, gatePasses args attrs s = true := by
      intro s
      simp [gatePasses, hj]
    refine ⟨hj, hg, fun s1 s2 => ?_⟩
    simp [runMain, hg]
  · intro hn
    simp [effJobMode, hn]

/-- Attributes carrying the "job" key with a falsy (empty-string) value. -/
def attrsJob : EventAttrs := ⟨none, none, none, none, none, some ""⟩

/-- C8 witness: with `job` present but empty, job mode is on, the gate
passes for a non-"Y" response, and the run ignores the prompt response. -/
theorem job_key_forces_job_mode_witness :
    effJobMode args0 attrsJob = true ∧
    gatePasses args0 attrsJob "no" = true ∧
    runMain args0 attrsJob "no" exFilled = runMain args0 attrsJob "Y" exFilled :=
  ⟨((job_key_forces_job_mode args0 attrsJob exFilled).1 "" rfl).1,
   ((job_key_forces_job_mode args0 attrsJob exFilled).1 "" rfl).2.1 "no",
   ((job_key_forces_job_mode args0 attrsJob exFilled).1 "" rfl).2.2 "no" "Y"⟩

/-! ## C9: order sizing -/

/-- C9: every run that reaches submission sends a market buy whose
`quote_size` is the effective amount quantized to the (normalized)
`base_increment` — not the quote increment — whichever currency the amount
was denominated in; and the `amount_currency_is_quote_currency` flag has no
effect on anything the run does after the validation. -/
theorem quote_size_from_base_increment
    (args : Args) (attrs : EventAttrs) (stdin : String) (ex : Exchange)
    (hgate : gatePasses args attrs stdin = true)
    (hcur : effCurrency args attrs = ex.product.quote_currency_id ∨
      effCurrency args attrs = ex.product.base_currency_id)
    (hside : effSide args attrs = "BUY") :
    Action.placeBuyOrder (effMarket args attrs)
        ((effAmount args attrs).quantize ex.product.base_increment.normalize) ∈
      (runMain args attrs stdin ex).1 ∧
    (∀ b1 b2, afterProduct b1 args attrs ex = afterProduct b2 args attrs ex) := by
  refine ⟨?_, fun b1 b2 => rfl⟩
  have hmem : ∀ b : Bool,
      Action.placeBuyOrder (effMarket args attrs)
        ((effAmount args attrs).quantize ex.product.base_increment.normalize) ∈
        (afterProduct b args attrs ex).1 := by
    intro b
    cases hm : ex.place.message with
    | true => simp [afterProduct, hside, hm]
    | false =>
        cases hs : ex.place.success with
        | none => simp [afterProduct, hside, hm, hs]
        | some oid => simp [afterProduct, hside, hm, hs]
  by_cases hq : effCurrency args attrs = ex.product.quote_currency_id
  · have hrm : runMain args attrs stdin ex =
        (Action.getProduct (effMarket args attrs) ::
          (afterProduct true args attrs ex).1,
         (afterProduct true args attrs ex).2) := by
      simp [runMain, hgate, hq]
    rw [hrm]
    exact List.mem_cons_of_mem _ (hmem true)
  · rcases hcur with h | h
    · exact absurd h hq
    · have hrm : runMain args attrs stdin ex =
          (Action.getProduct (effMarket args attrs) ::
            (afterProduct false args attrs ex).1,
           (afterProduct false args attrs ex).2) := by
        simp [runMain, hgate, hq, h,
          show afterProduct true args attrs ex = afterProduct false args attrs ex
            from rfl]
      rw [hrm]
      exact List.mem_cons_of_mem _ (hmem false)

/-- Attributes denominating the amount in the base currency (BTC). -/
def attrsBase : EventAttrs := ⟨none, none, none, some "BTC", none, none⟩

/-- C9 witness: with a base-denominated amount (BTC on BTC-USD), the order
sent still carries `quote_size` = amount quantized to the base increment,
and the flag value is irrelevant to the rest of the run. -/
theorem quote_size_from_base_increment_witness :
    Action.placeBuyOrder (effMarket args0 attrsBase)
        ((effAmount args0 attrsBase).quantize exFilled.product.base_increment.normalize) ∈
      (runMain args0 attrsBase "Y" exFilled).1 ∧
    afterProduct true args0 attrsBase exFilled =
      afterProduct false args0 attrsBase exFilled :=
  ⟨(quote_size_from_base_increment args0 attrsBase "Y" exFilled rfl
      (Or.inr rfl) rfl).1,
   (quote_size_from_base_increment args0 attrsBase "Y" exFilled rfl
      (Or.inr rfl) rfl).2 true false⟩

end GdaxBot
